import Mathlib

/-!
Verification of the asynchronous fault and signal delivery subsystem of the
Julia runtime (`src/signals-win.c`): the context-rewrite exception injector
(`jl_throw_in_ctx`), the cross-thread interrupt delivery protocol
(`jl_try_deliver_sigint`), the suspend/resume bridge
(`jl_thread_suspend_and_get_state`, `jl_thread_resume`), the sampling
profiler loop body (`profile_bt`), and the profiler timer start/stop
(`jl_profile_start_timer`, `jl_profile_stop_timer`).

The embedding keeps the source's structure: OS calls (SuspendThread,
GetThreadContext, SetThreadContext, ResumeThread, timeGetDevCaps,
CreateThread, timeBeginPeriod) are abstracted by boolean oracles recording
whether each call succeeds, and each modelled function additionally returns
the list of externally observable events it performs, in program order.
External collaborators that live outside this file (`jl_simulate_longjmp`,
`rec_backtrace_ctx`, the safepoint flag operations) are modelled from the
spec, as noted on their doc comments.
-/

namespace SignalsWin

/-- Exception objects relevant to this file. `stackovf` models
`jl_stackovf_exception`; the injector compares the thrown exception against
it by identity. -/
inductive Exc where
  | interrupt
  | stackovf
  | diverror
  | readonlymemory
  | other : Nat → Exc
  deriving DecidableEq, Repr

/-- A captured machine context (CONTEXT): an opaque register snapshot `snap`
plus, once a longjmp has been simulated on it, the jump-buffer identity the
context will resume into. -/
structure Ctx where
  snap : Nat
  resumesAt : Option Nat
  deriving DecidableEq, Repr

/-- Modelled from the spec: `jl_simulate_longjmp` is only declared in
`signals-win.c` (line 133); its definition lives elsewhere in the
repository. Per the spec (§4.2 step 6, §9), it rewrites the captured
context in place so that resuming it re-enters the saved resume point of
the given jump buffer, and reports failure when the rewrite cannot be
performed; the oracle `ok` abstracts that platform-specific failure
condition. -/
def jl_simulate_longjmp (ok : Nat → Ctx → Bool) (buf : Nat) (c : Ctx) : Option Ctx :=
  if ok buf c then some { c with resumesAt := some buf } else none

/-- Per-thread runtime state (`jl_ptls_t`): the fields of `ptls` read or
written by this file. -/
structure Ptls where
  tid : Nat
  bt_data : List Nat
  bt_size : Nat
  sig_exception : Option Exc
  io_wait : Bool
  defer_signal : Bool
  sleep_check_state : Nat
  deriving DecidableEq, Repr

/-- A managed task (`jl_task_t`): its exception-handler chain (head =
topmost frame, each frame identified by its saved jump buffer `eh_ctx`),
its thread-local state, and its GC stack root passed to the backtrace
walker. -/
structure Task where
  eh : List Nat
  ptls : Ptls
  gcstack : Option Nat
  deriving DecidableEq, Repr

/-- Environment of external collaborators for the injector:
the thread-local safe-restore jump buffer (`jl_get_safe_restore`), the
longjmp-simulation success oracle, the backtrace walker
`rec_backtrace_ctx` (returns the program-counter entries it would write
for a context and optional GC stack root), and the
`have_backtrace_fiber` flag. -/
structure SignalEnv where
  saferestore : Option Nat
  longjmp_ok : Nat → Ctx → Bool
  rec_backtrace_ctx : Ctx → Option Nat → List Nat
  have_backtrace_fiber : Bool

/-- Backtrace buffer capacity `JL_MAX_BT_SIZE`. -/
def JL_MAX_BT_SIZE : Nat := 80000

/-- How a call to `jl_throw_in_ctx` ends: it returned after rewriting the
context toward the safe-restore point; it returned after rewriting the
context toward the topmost handler frame; it invoked the fatal
`jl_no_exc_handler` collaborator; it called `abort()`; or it hit the
`assert(ct && excpt)` with a missing argument. -/
inductive ThrowOutcome where
  | restored
  | handler
  | noHandler : Exc → ThrowOutcome
  | aborted
  | invalid
  deriving DecidableEq, Repr

/-- The context-rewrite exception injector `jl_throw_in_ctx`
(signals-win.c lines 135-168). Returns the updated task (if any), the
possibly rewritten context, and the outcome. The stack-overflow branch
models the fiber handoff: `start_backtrace_fiber` records
`rec_backtrace_ctx(ptls->bt_data, JL_MAX_BT_SIZE, stkerror_ctx, NULL)`
into the task's buffer. -/
def jl_throw_in_ctx (env : SignalEnv) (ct : Option Task) (excpt : Option Exc)
    (c : Ctx) : Option Task × Ctx × ThrowOutcome :=
  match env.saferestore with
  | some sr =>
    match jl_simulate_longjmp env.longjmp_ok sr c with
    | some c2 => (ct, c2, .restored)
    | none => (ct, c, .aborted)
  | none =>
    match ct, excpt with
    | some t, some e =>
      let ptls0 := { t.ptls with bt_size := 0 }
      let ptls1 :=
        if e ≠ Exc.stackovf then
          let bt := (env.rec_backtrace_ctx c t.gcstack).take JL_MAX_BT_SIZE
          { ptls0 with bt_data := bt, bt_size := bt.length }
        else if env.have_backtrace_fiber then
          let bt := (env.rec_backtrace_ctx c none).take JL_MAX_BT_SIZE
          { ptls0 with bt_data := bt, bt_size := bt.length }
        else ptls0
      let ptls2 := { ptls1 with sig_exception := some e, io_wait := false }
      let t2 : Task := { t with ptls := ptls2 }
      match t.eh with
      | ehTop :: _ =>
        match jl_simulate_longjmp env.longjmp_ok ehTop c with
        | some c2 => (some t2, c2, .handler)
        | none => (some t2, c, .aborted)
      | [] => (some t2, c, .noHandler e)
    | _, _ => (ct, c, .invalid)

/-- Process-wide safepoint interrupt state (spec §3 SafepointFlag):
whether the interrupt safepoint is armed/pending and whether a forced
interrupt is requested. -/
structure SafepointFlag where
  sigint_pending : Bool
  force_sigint : Bool
  deriving DecidableEq, Repr

/-- Modelled from the spec: `jl_safepoint_enable_sigint` lives in the
safepoint collaborator; per spec §4.3 step 1 it arms the SafepointFlag's
interrupt state so a later cooperative poll observes the interrupt as
pending. -/
def jl_safepoint_enable_sigint (sp : SafepointFlag) : SafepointFlag :=
  { sp with sigint_pending := true }

/-- Modelled from the spec: `jl_safepoint_consume_sigint` clears the
pending-interrupt state of the SafepointFlag. -/
def jl_safepoint_consume_sigint (sp : SafepointFlag) : SafepointFlag :=
  { sp with sigint_pending := false }

/-- Modelled from the spec: `jl_check_force_sigint` reads the
force-interrupt override. -/
def jl_check_force_sigint (sp : SafepointFlag) : Bool :=
  sp.force_sigint

/-- Modelled from the spec: `jl_clear_force_sigint` clears the
force-interrupt override. -/
def jl_clear_force_sigint (sp : SafepointFlag) : SafepointFlag :=
  { sp with force_sigint := false }

/-- Externally observable events of the suspend/inject/resume machinery,
in program order. `suspendOk`/`suspendFail` are SuspendThread calls,
`getCtxOk`/`getCtxFail` GetThreadContext, `setCtxOk`/`setCtxFail`
SetThreadContext, `resumeOk`/`resumeFail` ResumeThread; `throwInCtx`
records a call of the injector with its outcome; `stopTimer` records a
call of `jl_profile_stop_timer`. -/
inductive Ev where
  | lockProfile
  | unlockProfile
  | lockStackwalk
  | unlockStackwalk
  | enableSigint
  | wakeLibuv
  | suspendOk
  | suspendFail
  | getCtxOk
  | getCtxFail
  | setCtxOk
  | setCtxFail
  | resumeOk
  | resumeFail
  | consumeSigint
  | clearForce
  | throwInCtx : ThrowOutcome → Ev
  | logMsg : String → Ev
  | abortEv
  | stopTimer
  deriving DecidableEq, Repr

/-- Success/failure oracle for the fallible OS thread calls made during one
execution of a suspend/inspect/resume sequence. -/
structure OsOracle where
  suspend_ok : Bool
  getctx_ok : Bool
  setctx_ok : Bool
  resume_ok : Bool
  deriving DecidableEq, Repr

/-- Whether a delivery or bridge execution returned to its caller or
terminated the process (abort, or the fatal no-handler collaborator). -/
inductive RunResult where
  | returned
  | died
  deriving DecidableEq, Repr

/-- Input state of `jl_try_deliver_sigint`: the SafepointFlag, the main
worker's current task (whose `ptls` is `jl_all_tls_states[0]`), and the
context that a successful GetThreadContext on the main thread yields. -/
structure SigintState where
  sp : SafepointFlag
  task : Task
  ctxRead : Ctx

/-- The cross-thread interrupt delivery protocol `jl_try_deliver_sigint`
(signals-win.c lines 173-215), directed at the main thread. Returns the
final SafepointFlag, the (possibly updated) main task, the event trace,
and whether the call returned or the process died inside the injector. -/
def jl_try_deliver_sigint (env : SignalEnv) (os : OsOracle) (s : SigintState) :
    SafepointFlag × Task × List Ev × RunResult :=
  let sp1 := jl_safepoint_enable_sigint s.sp
  let evs0 := [Ev.lockProfile, Ev.enableSigint, Ev.wakeLibuv]
  if !os.suspend_ok then
    (sp1, s.task,
      evs0 ++ [Ev.suspendFail, Ev.logMsg "error: SuspendThread failed", Ev.unlockProfile],
      .returned)
  else
    let evs1 := evs0 ++ [Ev.suspendOk, Ev.unlockProfile]
    let force := jl_check_force_sigint sp1
    if force || (!s.task.ptls.defer_signal && s.task.ptls.io_wait) then
      let sp2 := jl_safepoint_consume_sigint sp1
      let sp3 := jl_clear_force_sigint sp2
      let evs2 := evs1 ++ [Ev.consumeSigint]
        ++ (if force then [Ev.logMsg "WARNING: Force throwing a SIGINT"] else [])
        ++ [Ev.clearForce]
      if !os.getctx_ok then
        (sp3, s.task,
          evs2 ++ [Ev.getCtxFail, Ev.logMsg "error: GetThreadContext failed"],
          .returned)
      else
        let r := jl_throw_in_ctx env (some s.task) (some Exc.interrupt) s.ctxRead
        let task2 := r.1.getD s.task
        let out := r.2.2
        let evs3 := evs2 ++ [Ev.getCtxOk, Ev.throwInCtx out]
        match out with
        | .aborted => (sp3, task2, evs3 ++ [Ev.abortEv], .died)
        | .noHandler _ => (sp3, task2, evs3, .died)
        | _ =>
          if !os.setctx_ok then
            (sp3, task2,
              evs3 ++ [Ev.setCtxFail, Ev.logMsg "error: SetThreadContext failed"],
              .returned)
          else
            let evs4 := evs3 ++ [Ev.setCtxOk]
            if !os.resume_ok then
              (sp3, task2,
                evs4 ++ [Ev.resumeFail, Ev.logMsg "error: ResumeThread failed"],
                .returned)
            else
              (sp3, task2, evs4 ++ [Ev.resumeOk], .returned)
    else
      if !os.resume_ok then
        (sp1, s.task,
          evs1 ++ [Ev.resumeFail, Ev.logMsg "error: ResumeThread failed"],
          .returned)
      else
        (sp1, s.task, evs1 ++ [Ev.resumeOk], .returned)

/-- One slot of `jl_all_tls_states`: whether the ptls is present, whether
its current task is non-null, the ptls itself, and the context a
successful GetThreadContext on its system thread yields. -/
structure ThreadSlot where
  alive : Bool
  hasTask : Bool
  ptls : Ptls
  ctx : Ctx

/-- The suspend half of the stack-walk bridge
`jl_thread_suspend_and_get_state` (signals-win.c lines 353-374). Returns
`some ctx` exactly when the function returns 1 (thread left suspended for
the caller), the event trace, and whether the process aborted (resume
after a failed context read itself failing). -/
def jl_thread_suspend_and_get_state (os : OsOracle) (th : ThreadSlot) :
    Option Ctx × List Ev × RunResult :=
  if !th.alive then (none, [], .returned)
  else if !th.hasTask then (none, [], .returned)
  else if !os.suspend_ok then (none, [Ev.suspendFail], .returned)
  else if !os.getctx_ok then
    if !os.resume_ok then
      (none, [Ev.suspendOk, Ev.getCtxFail, Ev.resumeFail, Ev.abortEv], .died)
    else
      (none, [Ev.suspendOk, Ev.getCtxFail, Ev.resumeOk], .returned)
  else
    (some th.ctx, [Ev.suspendOk, Ev.getCtxOk], .returned)

/-- The resume half of the stack-walk bridge `jl_thread_resume`
(signals-win.c lines 376-384): a ResumeThread failure aborts the
process. -/
def jl_thread_resume (os : OsOracle) : List Ev × RunResult :=
  if os.resume_ok then ([Ev.resumeOk], .returned)
  else
    ([Ev.resumeFail, Ev.logMsg "failed to resume main thread! aborting.", Ev.abortEv],
      .died)

/-- One slot of the profiler sample buffer `profile_bt_data_prof`: a
`jl_bt_element_t` written either through its `uintptr` member or its
`jlvalue` member (the task pointer, identified by a number). -/
inductive ProfEntry where
  | ptr : Nat → ProfEntry
  | taskref : Nat → ProfEntry
  deriving DecidableEq, Repr

/-- Modelled from the spec: `PROFILE_STATE_THREAD_NOT_SLEEPING` is defined
in a header outside this file; the spec only requires the sleep/active
flag never be encoded as 0. -/
def PROFILE_STATE_THREAD_NOT_SLEEPING : Nat := 1

/-- Modelled from the spec: `PROFILE_STATE_THREAD_SLEEPING`, the other
value of the sleep/active flag, likewise nonzero. -/
def PROFILE_STATE_THREAD_SLEEPING : Nat := 2

/-- One iteration of the single-thread sampling branch of `profile_bt`
(signals-win.c lines 422-457): profiling is running, the buffer is not
full, and `profile_all_tasks` is false. `taskId` identifies
`ptls->current_task`, `cycle` is the value `cycleclock()` returns, and
`size_max` is `profile_bt_size_max`. Returns the new buffer, the event
trace, and whether the process aborted in `jl_thread_resume`. -/
def profile_bt_step (env : SignalEnv) (os : OsOracle) (th : ThreadSlot)
    (taskId cycle size_max : Nat) (buf : List ProfEntry) :
    List ProfEntry × List Ev × RunResult :=
  let r := jl_thread_suspend_and_get_state os th
  match r.1 with
  | none =>
    match r.2.2 with
    | .died => (buf, [Ev.lockStackwalk] ++ r.2.1, .died)
    | .returned =>
      (buf,
        [Ev.lockStackwalk] ++ r.2.1
          ++ [Ev.unlockStackwalk,
              Ev.logMsg "failed to suspend main thread. aborting profiling.",
              Ev.stopTimer],
        .returned)
  | some ctx =>
    let pcs := (env.rec_backtrace_ctx ctx none).take (size_max - buf.length - 1)
    let state := if th.ptls.sleep_check_state == 0 then
        PROFILE_STATE_THREAD_NOT_SLEEPING
      else PROFILE_STATE_THREAD_SLEEPING
    let buf2 := buf ++ pcs.map ProfEntry.ptr
      ++ [ProfEntry.ptr (th.ptls.tid + 1), ProfEntry.taskref taskId,
          ProfEntry.ptr cycle, ProfEntry.ptr state,
          ProfEntry.ptr 0, ProfEntry.ptr 0]
    let rr := jl_thread_resume os
    (buf2, [Ev.lockStackwalk] ++ r.2.1 ++ [Ev.unlockStackwalk] ++ rr.1, rr.2)

/-- Profiler timer state touched by `jl_profile_start_timer` and
`jl_profile_stop_timer`: whether the background thread exists
(`hBtThread`), the running and all-tasks flags, and the cached
`timecaps.wPeriodMin`. -/
structure ProfTimerState where
  hBtThread : Bool
  profile_running : Bool
  profile_all_tasks : Bool
  wPeriodMin : Nat
  deriving DecidableEq, Repr

/-- Success oracle for the OS calls `jl_profile_start_timer` makes:
timeGetDevCaps (and the `wPeriodMin` it reports), CreateThread,
ResumeThread on the existing profiler thread, and timeBeginPeriod. -/
structure TimerOracle where
  getDevCaps_ok : Bool
  devCapsPeriodMin : Nat
  createThread_ok : Bool
  resumeBt_ok : Bool
  timeBeginPeriod_ok : Bool
  deriving DecidableEq, Repr

/-- Externally observable timer events of start/stop, in program order. -/
inductive TimerEv where
  | devCaps
  | createThread
  | resumeBtThread
  | beginPeriodOk : Nat → TimerEv
  | beginPeriodFail : Nat → TimerEv
  | endPeriod : Nat → TimerEv
  deriving DecidableEq, Repr

/-- `jl_profile_start_timer` (signals-win.c lines 468-505). Returns the new
timer state, the event trace, and the return code (0 success, -1 thread
creation failed, -2 timer query or thread resume failed). -/
def jl_profile_start_timer (o : TimerOracle) (all_tasks : Bool)
    (s : ProfTimerState) : ProfTimerState × List TimerEv × Int :=
  let phase1 : Except (ProfTimerState × List TimerEv × Int) (ProfTimerState × List TimerEv) :=
    if !s.hBtThread then
      if !o.getDevCaps_ok then .error (s, [TimerEv.devCaps], -2)
      else
        let s1 := { s with wPeriodMin := o.devCapsPeriodMin }
        if !o.createThread_ok then .error (s1, [TimerEv.devCaps, TimerEv.createThread], -1)
        else .ok ({ s1 with hBtThread := true }, [TimerEv.devCaps, TimerEv.createThread])
    else
      if !o.resumeBt_ok then .error (s, [TimerEv.resumeBtThread], -2)
      else .ok (s, [TimerEv.resumeBtThread])
  match phase1 with
  | .error r => r
  | .ok (s1, evs) =>
    let s2evs :=
      if s1.profile_running = false then
        if o.timeBeginPeriod_ok then (s1, evs ++ [TimerEv.beginPeriodOk s1.wPeriodMin])
        else ({ s1 with wPeriodMin := 0 }, evs ++ [TimerEv.beginPeriodFail s1.wPeriodMin])
      else (s1, evs)
    ({ s2evs.1 with profile_all_tasks := all_tasks, profile_running := true },
      s2evs.2, 0)

/-- `jl_profile_stop_timer` (signals-win.c lines 506-514): calls
timeEndPeriod exactly when profiling is running and a nonzero period was
cached, then clears the running and all-tasks flags. -/
def jl_profile_stop_timer (s : ProfTimerState) : ProfTimerState × List TimerEv :=
  let evs := if s.profile_running && s.wPeriodMin ≠ 0 then
      [TimerEv.endPeriod s.wPeriodMin]
    else []
  ({ s with profile_running := false, profile_all_tasks := false }, evs)

/-- Counts the ResumeThread calls (successful or failed) in a trace. -/
def countResumeCalls (l : List Ev) : Nat :=
  l.countP (fun e => e = Ev.resumeOk || e = Ev.resumeFail)

/-- Counts the successful SuspendThread calls in a trace. -/
def countSuspendOk (l : List Ev) : Nat :=
  l.countP (fun e => e = Ev.suspendOk)

/-- Counts the timeEndPeriod calls in a timer trace. -/
def countEndPeriod (l : List TimerEv) : Nat :=
  l.countP (fun e => match e with | TimerEv.endPeriod _ => true | _ => false)

/-! Concrete fixtures used by witnesses and counterexamples. -/

/-- Test environment: no safe-restore point, longjmp simulation always
succeeds, backtrace walker returns two entries, fiber initialized. -/
def envT : SignalEnv :=
  { saferestore := none
    longjmp_ok := fun _ _ => true
    rec_backtrace_ctx := fun c _ => [c.snap, 17]
    have_backtrace_fiber := true }

/-- Test environment with a safe-restore point registered at buffer 7. -/
def envSR : SignalEnv := { envT with saferestore := some 7 }

/-- Test environment without an initialized backtrace fiber. -/
def envNF : SignalEnv := { envT with have_backtrace_fiber := false }

/-- Test per-thread state of the main worker (tid 0). -/
def ptlsMain : Ptls :=
  { tid := 0, bt_data := [], bt_size := 0, sig_exception := none
    io_wait := true, defer_signal := false, sleep_check_state := 0 }

/-- Test task with one handler frame (jump buffer 5). -/
def task1 : Task := { eh := [5], ptls := ptlsMain, gcstack := some 3 }

/-- Test task with an empty handler chain. -/
def task0 : Task := { eh := [], ptls := ptlsMain, gcstack := none }

/-- Test captured context. -/
def ctx0 : Ctx := { snap := 42, resumesAt := none }

/-! Claims about the injector `jl_throw_in_ctx`. -/

/-- Claim C1: for a task with a non-empty handler chain, no safe-restore
point registered, and a context the longjmp simulation accepts, injecting
exception `e` rewrites the context to resume at the topmost handler
frame's saved resume point, stores `e` in the task's pending-exception
slot, clears the I/O-wait flag, and fills the backtrace buffer from the
supplied context (non-stack-overflow case) or resets it and lets the
fiber fill it (stack-overflow case with an initialized fiber). -/
theorem throw_in_ctx_injects_into_topmost_handler (env : SignalEnv) (t : Task)
    (e : Exc) (c : Ctx) (ehTop : Nat) (rest : List Nat)
    (hsr : env.saferestore = none) (heh : t.eh = ehTop :: rest)
    (hjmp : env.longjmp_ok ehTop c = true) :
    ∃ t2 : Task,
      jl_throw_in_ctx env (some t) (some e) c =
        (some t2, { c with resumesAt := some ehTop }, ThrowOutcome.handler) ∧
      t2.ptls.sig_exception = some e ∧
      t2.ptls.io_wait = false ∧
      t2.eh = t.eh ∧
      (e ≠ Exc.stackovf →
        t2.ptls.bt_data = (env.rec_backtrace_ctx c t.gcstack).take JL_MAX_BT_SIZE ∧
        t2.ptls.bt_size = t2.ptls.bt_data.length) ∧
      (e = Exc.stackovf → env.have_backtrace_fiber = true →
        t2.ptls.bt_data = (env.rec_backtrace_ctx c none).take JL_MAX_BT_SIZE ∧
        t2.ptls.bt_size = t2.ptls.bt_data.length) := by
  by_cases he : e = Exc.stackovf
  · by_cases hf : env.have_backtrace_fiber = true
    · refine ⟨{ t with ptls :=
        { t.ptls with
            bt_data := (env.rec_backtrace_ctx c none).take JL_MAX_BT_SIZE
            bt_size := ((env.rec_backtrace_ctx c none).take JL_MAX_BT_SIZE).length
            sig_exception := some e, io_wait := false } },
        ?_, ?_, ?_, ?_, ?_, ?_⟩ <;>
        simp [jl_throw_in_ctx, hsr, heh, jl_simulate_longjmp, hjmp, he, hf]
    · refine ⟨{ t with ptls :=
        { t.ptls with bt_size := 0, sig_exception := some e, io_wait := false } },
        ?_, ?_, ?_, ?_, ?_, ?_⟩ <;>
        simp [jl_throw_in_ctx, hsr, heh, jl_simulate_longjmp, hjmp, he, hf]
  · refine ⟨{ t with ptls :=
      { t.ptls with
          bt_data := (env.rec_backtrace_ctx c t.gcstack).take JL_MAX_BT_SIZE
          bt_size := ((env.rec_backtrace_ctx c t.gcstack).take JL_MAX_BT_SIZE).length
          sig_exception := some e, io_wait := false } },
      ?_, ?_, ?_, ?_, ?_, ?_⟩ <;>
      simp [jl_throw_in_ctx, hsr, heh, jl_simulate_longjmp, hjmp, he]

/-- Claim C1 witness: concrete divide-error injection into `task1`. -/
theorem throw_in_ctx_injects_into_topmost_handler_witness :
    ∃ t2 : Task,
      jl_throw_in_ctx envT (some task1) (some Exc.diverror) ctx0 =
        (some t2, { ctx0 with resumesAt := some 5 }, ThrowOutcome.handler) ∧
      t2.ptls.sig_exception = some Exc.diverror ∧
      t2.ptls.io_wait = false ∧
      t2.eh = task1.eh ∧
      (Exc.diverror ≠ Exc.stackovf →
        t2.ptls.bt_data =
          (envT.rec_backtrace_ctx ctx0 task1.gcstack).take JL_MAX_BT_SIZE ∧
        t2.ptls.bt_size = t2.ptls.bt_data.length) ∧
      (Exc.diverror = Exc.stackovf → envT.have_backtrace_fiber = true →
        t2.ptls.bt_data = (envT.rec_backtrace_ctx ctx0 none).take JL_MAX_BT_SIZE ∧
        t2.ptls.bt_size = t2.ptls.bt_data.length) :=
  throw_in_ctx_injects_into_topmost_handler envT task1 Exc.diverror ctx0 5 []
    rfl rfl rfl

/-- Claim C2: for a task with an empty handler chain and no safe-restore
point, the injector never rewrites the context (it is returned unchanged,
so resuming it would not enter application code at a new location) and
always reaches the `jl_no_exc_handler` collaborator. -/
theorem throw_in_ctx_no_handler_fatal (env : SignalEnv) (t : Task) (e : Exc)
    (c : Ctx) (hsr : env.saferestore = none) (heh : t.eh = []) :
    (jl_throw_in_ctx env (some t) (some e) c).2.2 = ThrowOutcome.noHandler e ∧
    (jl_throw_in_ctx env (some t) (some e) c).2.1 = c := by
  constructor <;> simp [jl_throw_in_ctx, hsr, heh]

/-- Claim C2 witness: concrete interrupt injection into the
handler-less `task0`. -/
theorem throw_in_ctx_no_handler_fatal_witness :
    (jl_throw_in_ctx envT (some task0) (some Exc.interrupt) ctx0).2.2 =
      ThrowOutcome.noHandler Exc.interrupt ∧
    (jl_throw_in_ctx envT (some task0) (some Exc.interrupt) ctx0).2.1 = ctx0 :=
  throw_in_ctx_no_handler_fatal envT task0 Exc.interrupt ctx0 rfl rfl

/-- Claim C9: when a fault-site restore point is registered, the injector
leaves the task argument untouched (so its backtrace length,
pending-exception slot, I/O-wait flag and handler chain are unchanged)
for any task and exception, including null ones, and when the longjmp
simulation succeeds it returns having mutated only the supplied context,
which then resumes at the restore point. -/
theorem throw_in_ctx_saferestore_frame (env : SignalEnv) (ct : Option Task)
    (excpt : Option Exc) (c : Ctx) (sr : Nat)
    (hsr : env.saferestore = some sr) :
    (jl_throw_in_ctx env ct excpt c).1 = ct ∧
    (env.longjmp_ok sr c = true →
      jl_throw_in_ctx env ct excpt c =
        (ct, { c with resumesAt := some sr }, ThrowOutcome.restored)) := by
  constructor
  · cases h : env.longjmp_ok sr c <;>
      simp [jl_throw_in_ctx, hsr, jl_simulate_longjmp, h]
  · intro h
    simp [jl_throw_in_ctx, hsr, jl_simulate_longjmp, h]

/-- Claim C9 witness: concrete injection with a null task and null
exception while restore point 7 is registered. -/
theorem throw_in_ctx_saferestore_frame_witness :
    (jl_throw_in_ctx envSR none none ctx0).1 = none ∧
    (envSR.longjmp_ok 7 ctx0 = true →
      jl_throw_in_ctx envSR none none ctx0 =
        (none, { ctx0 with resumesAt := some 7 }, ThrowOutcome.restored)) :=
  throw_in_ctx_saferestore_frame envSR none none ctx0 7 rfl

/-- Claim C10: injecting the stack-exhausted exception while the backtrace
fiber is uninitialized still completes — the exception becomes pending,
the I/O-wait flag is cleared, and control goes to the topmost handler
frame or the no-handler collaborator — but the task's backtrace length
stays zero. -/
theorem throw_in_ctx_stackovf_no_fiber (env : SignalEnv) (t : Task) (c : Ctx)
    (hsr : env.saferestore = none) (hf : env.have_backtrace_fiber = false) :
    ∃ t2 : Task,
      (jl_throw_in_ctx env (some t) (some Exc.stackovf) c).1 = some t2 ∧
      t2.ptls.bt_size = 0 ∧
      t2.ptls.sig_exception = some Exc.stackovf ∧
      t2.ptls.io_wait = false ∧
      (t.eh = [] →
        jl_throw_in_ctx env (some t) (some Exc.stackovf) c =
          (some t2, c, ThrowOutcome.noHandler Exc.stackovf)) ∧
      (∀ ehTop rest, t.eh = ehTop :: rest → env.longjmp_ok ehTop c = true →
        jl_throw_in_ctx env (some t) (some Exc.stackovf) c =
          (some t2, { c with resumesAt := some ehTop }, ThrowOutcome.handler)) := by
  cases heh : t.eh with
  | nil =>
    refine ⟨{ t with ptls :=
      { t.ptls with
          bt_size := 0, sig_exception := some Exc.stackovf,
          io_wait := false } },
      ?_, ?_, ?_, ?_, ?_, ?_⟩ <;>
      simp [jl_throw_in_ctx, hsr, hf, heh, jl_simulate_longjmp]
  | cons ehTop rest =>
    refine ⟨{ t with ptls :=
      { t.ptls with
          bt_size := 0, sig_exception := some Exc.stackovf,
          io_wait := false } },
      ?_, ?_, ?_, ?_, ?_, ?_⟩
    · cases hj : env.longjmp_ok ehTop c <;>
        simp [jl_throw_in_ctx, hsr, hf, heh, jl_simulate_longjmp, hj]
    · rfl
    · rfl
    · rfl
    · intro h
      exact absurd h (by simp)
    · intro a b hab hjmp
      cases hab
      simp [jl_throw_in_ctx, hsr, hf, heh, jl_simulate_longjmp, hjmp]

/-- Claim C10 witness: concrete stack-overflow injection into `task1`
with the fiber uninitialized. -/
theorem throw_in_ctx_stackovf_no_fiber_witness :
    ∃ t2 : Task,
      (jl_throw_in_ctx envNF (some task1) (some Exc.stackovf) ctx0).1 = some t2 ∧
      t2.ptls.bt_size = 0 ∧
      t2.ptls.sig_exception = some Exc.stackovf ∧
      t2.ptls.io_wait = false ∧
      (task1.eh = [] →
        jl_throw_in_ctx envNF (some task1) (some Exc.stackovf) ctx0 =
          (some t2, ctx0, ThrowOutcome.noHandler Exc.stackovf)) ∧
      (∀ ehTop rest, task1.eh = ehTop :: rest →
        envNF.longjmp_ok ehTop ctx0 = true →
        jl_throw_in_ctx envNF (some task1) (some Exc.stackovf) ctx0 =
          (some t2, { ctx0 with resumesAt := some ehTop }, ThrowOutcome.handler)) :=
  throw_in_ctx_stackovf_no_fiber envNF task1 ctx0 rfl rfl

/-- Test per-thread state of a worker that is deferring signals and not in
I/O wait. -/
def ptlsDefer : Ptls := { ptlsMain with defer_signal := true, io_wait := false }

/-- Test task that is deferring signals. -/
def taskDefer : Task := { task1 with ptls := ptlsDefer }

/-- Oracle where every OS thread call succeeds. -/
def osAllOk : OsOracle :=
  { suspend_ok := true, getctx_ok := true, setctx_ok := true, resume_ok := true }

/-- Oracle where GetThreadContext fails. -/
def osGetFail : OsOracle := { osAllOk with getctx_ok := false }

/-- Oracle where SetThreadContext fails. -/
def osSetFail : OsOracle := { osAllOk with setctx_ok := false }

/-- Oracle where ResumeThread fails. -/
def osResFail : OsOracle := { osAllOk with resume_ok := false }

/-- Idle SafepointFlag. -/
def spIdle : SafepointFlag := { sigint_pending := false, force_sigint := false }

/-- Delivery input: idle flag, deliverable main task (in I/O wait), context
`ctx0`. -/
def sigS0 : SigintState := { sp := spIdle, task := task1, ctxRead := ctx0 }

/-- Delivery input whose target task is deferring signals. -/
def sigSDefer : SigintState := { sp := spIdle, task := taskDefer, ctxRead := ctx0 }

/-- Live main-thread slot for the bridge and the profiler. -/
def thMain : ThreadSlot :=
  { alive := true, hasTask := true, ptls := ptlsMain, ctx := ctx0 }

/-! Claims about the interrupt delivery protocol and the profiler. -/

/-- Claim C6: if the target is deferring signals, is not in I/O wait, and
no force-interrupt override is set, a successful suspend is followed by a
resume with no context read, no injection and no write-back, the task is
untouched, and the armed interrupt stays pending in the SafepointFlag. -/
theorem sigint_deferral_no_mutation (env : SignalEnv) (os : OsOracle)
    (s : SigintState) (hsus : os.suspend_ok = true)
    (hforce : s.sp.force_sigint = false)
    (hdefer : s.task.ptls.defer_signal = true)
    (hio : s.task.ptls.io_wait = false) :
    jl_try_deliver_sigint env os s =
      ({ s.sp with sigint_pending := true }, s.task,
        [Ev.lockProfile, Ev.enableSigint, Ev.wakeLibuv, Ev.suspendOk,
            Ev.unlockProfile]
          ++ (if os.resume_ok then [Ev.resumeOk]
              else [Ev.resumeFail, Ev.logMsg "error: ResumeThread failed"]),
        RunResult.returned) ∧
    (jl_try_deliver_sigint env os s).1.sigint_pending = true ∧
    (∀ o : ThrowOutcome,
      Ev.throwInCtx o ∉ (jl_try_deliver_sigint env os s).2.2.1) ∧
    Ev.getCtxOk ∉ (jl_try_deliver_sigint env os s).2.2.1 ∧
    Ev.getCtxFail ∉ (jl_try_deliver_sigint env os s).2.2.1 ∧
    Ev.setCtxOk ∉ (jl_try_deliver_sigint env os s).2.2.1 ∧
    Ev.setCtxFail ∉ (jl_try_deliver_sigint env os s).2.2.1 ∧
    Ev.consumeSigint ∉ (jl_try_deliver_sigint env os s).2.2.1 ∧
    countResumeCalls (jl_try_deliver_sigint env os s).2.2.1 = 1 := by
  have hmain : jl_try_deliver_sigint env os s =
      ({ s.sp with sigint_pending := true }, s.task,
        [Ev.lockProfile, Ev.enableSigint, Ev.wakeLibuv, Ev.suspendOk,
            Ev.unlockProfile]
          ++ (if os.resume_ok then [Ev.resumeOk]
              else [Ev.resumeFail, Ev.logMsg "error: ResumeThread failed"]),
        RunResult.returned) := by
    cases hres : os.resume_ok <;>
      simp [jl_try_deliver_sigint, jl_safepoint_enable_sigint,
        jl_check_force_sigint, hsus, hforce, hdefer, hio, hres]
  refine ⟨hmain, ?_, ?_, ?_, ?_, ?_, ?_, ?_, ?_⟩ <;>
    rw [hmain] <;> cases hres : os.resume_ok <;>
    simp [countResumeCalls, hres]

/-- Claim C6 witness: concrete deferral run with all OS calls
succeeding. -/
theorem sigint_deferral_no_mutation_witness :
    jl_try_deliver_sigint envT osAllOk sigSDefer =
      ({ sigSDefer.sp with sigint_pending := true }, sigSDefer.task,
        [Ev.lockProfile, Ev.enableSigint, Ev.wakeLibuv, Ev.suspendOk,
            Ev.unlockProfile]
          ++ (if osAllOk.resume_ok then [Ev.resumeOk]
              else [Ev.resumeFail, Ev.logMsg "error: ResumeThread failed"]),
        RunResult.returned) ∧
    (jl_try_deliver_sigint envT osAllOk sigSDefer).1.sigint_pending = true ∧
    (∀ o : ThrowOutcome,
      Ev.throwInCtx o ∉ (jl_try_deliver_sigint envT osAllOk sigSDefer).2.2.1) ∧
    Ev.getCtxOk ∉ (jl_try_deliver_sigint envT osAllOk sigSDefer).2.2.1 ∧
    Ev.getCtxFail ∉ (jl_try_deliver_sigint envT osAllOk sigSDefer).2.2.1 ∧
    Ev.setCtxOk ∉ (jl_try_deliver_sigint envT osAllOk sigSDefer).2.2.1 ∧
    Ev.setCtxFail ∉ (jl_try_deliver_sigint envT osAllOk sigSDefer).2.2.1 ∧
    Ev.consumeSigint ∉ (jl_try_deliver_sigint envT osAllOk sigSDefer).2.2.1 ∧
    countResumeCalls (jl_try_deliver_sigint envT osAllOk sigSDefer).2.2.1 = 1 :=
  sigint_deferral_no_mutation envT osAllOk sigSDefer rfl rfl rfl rfl

/-- Claim C3 counterexample: with a deliverable target (in I/O wait) and a
failing GetThreadContext, `jl_try_deliver_sigint` returns after one
successful suspend and zero resume calls — the main thread is left
suspended, refuting the claim that every successful suspend is followed by
exactly one resume even on the read-context failure path. -/
theorem sigint_getctx_failure_leaves_thread_suspended :
    countSuspendOk (jl_try_deliver_sigint envT osGetFail sigS0).2.2.1 = 1 ∧
    countResumeCalls (jl_try_deliver_sigint envT osGetFail sigS0).2.2.1 = 0 ∧
    (jl_try_deliver_sigint envT osGetFail sigS0).2.2.2 = RunResult.returned :=
  ⟨rfl, rfl, rfl⟩

/-- Claim C3 amended: on the profiler path (the bridge plus the profiler's
resume) every successful suspend is matched by exactly one resume call,
including on the read-context failure path; on the interrupt-delivery
path this pairing holds whenever the context read and write-back succeed
(and the call returns), but a read or write-back failure makes delivery
return with the target still suspended. -/
theorem suspend_resume_pairing_amended :
    (∀ (env : SignalEnv) (os : OsOracle) (th : ThreadSlot)
        (taskId cycle size_max : Nat) (buf : List ProfEntry),
      countSuspendOk (profile_bt_step env os th taskId cycle size_max buf).2.1 =
        countResumeCalls
          (profile_bt_step env os th taskId cycle size_max buf).2.1) ∧
    (∀ (env : SignalEnv) (os : OsOracle) (s : SigintState),
      os.getctx_ok = true → os.setctx_ok = true →
      (jl_try_deliver_sigint env os s).2.2.2 = RunResult.returned →
      countSuspendOk (jl_try_deliver_sigint env os s).2.2.1 =
        countResumeCalls (jl_try_deliver_sigint env os s).2.2.1) := by
  constructor
  · intro env os th taskId cycle size_max buf
    rcases os with ⟨sus, g, st, res⟩
    rcases th with ⟨al, htk, p, cx⟩
    cases al <;> cases htk <;> cases sus <;> cases g <;> cases res <;>
      simp [profile_bt_step, jl_thread_suspend_and_get_state, jl_thread_resume,
        countSuspendOk, countResumeCalls]
  · intro env os s hget hset
    rcases hout : jl_throw_in_ctx env (some s.task) (some Exc.interrupt)
      s.ctxRead with ⟨t2, c2, out⟩
    rcases os with ⟨sus, g, st, res⟩
    cases hget
    cases hset
    cases sus <;> cases res <;>
      cases hf : s.sp.force_sigint <;>
      cases hd : s.task.ptls.defer_signal <;>
      cases hio : s.task.ptls.io_wait <;>
      cases out <;>
      intro hres <;>
      simp_all [jl_try_deliver_sigint, jl_safepoint_enable_sigint,
        jl_check_force_sigint, jl_safepoint_consume_sigint,
        jl_clear_force_sigint, countSuspendOk, countResumeCalls]

/-- Claim C3 amended witness: both pairing statements at a concrete
all-success run. -/
theorem suspend_resume_pairing_amended_witness :
    countSuspendOk (profile_bt_step envT osAllOk thMain 9 11 100 []).2.1 =
      countResumeCalls (profile_bt_step envT osAllOk thMain 9 11 100 []).2.1 ∧
    countSuspendOk (jl_try_deliver_sigint envT osAllOk sigS0).2.2.1 =
      countResumeCalls (jl_try_deliver_sigint envT osAllOk sigS0).2.2.1 :=
  ⟨suspend_resume_pairing_amended.1 envT osAllOk thMain 9 11 100 [],
    suspend_resume_pairing_amended.2 envT osAllOk sigS0 rfl rfl rfl⟩

/-- Claim C4 counterexample: with a deliverable target and a failing
SetThreadContext, delivery logs the failure but returns with zero resume
calls, refuting the claim that it still proceeds to resume the target. -/
theorem sigint_setctx_failure_skips_resume :
    countSuspendOk (jl_try_deliver_sigint envT osSetFail sigS0).2.2.1 = 1 ∧
    countResumeCalls (jl_try_deliver_sigint envT osSetFail sigS0).2.2.1 = 0 ∧
    Ev.logMsg "error: SetThreadContext failed"
      ∈ (jl_try_deliver_sigint envT osSetFail sigS0).2.2.1 ∧
    (jl_try_deliver_sigint envT osSetFail sigS0).2.2.2 = RunResult.returned := by
  refine ⟨rfl, rfl, ?_, rfl⟩
  decide

/-- Claim C4 amended: when writing the mutated context back to the
suspended target fails, the failure is logged and the delivery attempt is
abandoned — the protocol returns without resuming the target thread. -/
theorem setctx_failure_logged_no_resume (env : SignalEnv) (os : OsOracle)
    (s : SigintState) (hsus : os.suspend_ok = true)
    (hcond : s.sp.force_sigint = true ∨
      (s.task.ptls.defer_signal = false ∧ s.task.ptls.io_wait = true))
    (hget : os.getctx_ok = true) (hset : os.setctx_ok = false)
    (hout : (jl_throw_in_ctx env (some s.task) (some Exc.interrupt)
        s.ctxRead).2.2 = ThrowOutcome.handler ∨
      (jl_throw_in_ctx env (some s.task) (some Exc.interrupt)
        s.ctxRead).2.2 = ThrowOutcome.restored) :
    (jl_try_deliver_sigint env os s).2.2.2 = RunResult.returned ∧
    Ev.logMsg "error: SetThreadContext failed"
      ∈ (jl_try_deliver_sigint env os s).2.2.1 ∧
    countResumeCalls (jl_try_deliver_sigint env os s).2.2.1 = 0 := by
  rcases hrun : jl_throw_in_ctx env (some s.task) (some Exc.interrupt)
    s.ctxRead with ⟨t2, c2, out⟩
  rw [hrun] at hout
  simp only at hout
  rcases os with ⟨sus, g, st, res⟩
  cases hsus
  cases hget
  cases hset
  rcases hcond with hfr | ⟨hd, hio⟩
  · rcases hout with hout | hout <;> cases hout <;>
      refine ⟨?_, ?_, ?_⟩ <;>
      simp [jl_try_deliver_sigint, jl_safepoint_enable_sigint,
        jl_check_force_sigint, jl_safepoint_consume_sigint,
        jl_clear_force_sigint, countResumeCalls, hfr, hrun]
  · rcases hout with hout | hout <;> cases hout <;>
      cases hf : s.sp.force_sigint <;>
      refine ⟨?_, ?_, ?_⟩ <;>
      simp [jl_try_deliver_sigint, jl_safepoint_enable_sigint,
        jl_check_force_sigint, jl_safepoint_consume_sigint,
        jl_clear_force_sigint, countResumeCalls, hf, hd, hio, hrun]

/-- Claim C4 amended witness: concrete run with SetThreadContext
failing. -/
theorem setctx_failure_logged_no_resume_witness :
    (jl_try_deliver_sigint envT osSetFail sigS0).2.2.2 = RunResult.returned ∧
    Ev.logMsg "error: SetThreadContext failed"
      ∈ (jl_try_deliver_sigint envT osSetFail sigS0).2.2.1 ∧
    countResumeCalls (jl_try_deliver_sigint envT osSetFail sigS0).2.2.1 = 0 :=
  setctx_failure_logged_no_resume envT osSetFail sigS0 rfl
    (Or.inr ⟨rfl, rfl⟩) rfl rfl (Or.inl rfl)

/-- Claim C5 counterexample: on the interrupt-delivery path a failing
ResumeThread is only logged — `jl_try_deliver_sigint` returns and the
process does not abort, refuting the claim that a resume failure
terminates the process on this path too. -/
theorem sigint_resume_failure_does_not_abort :
    Ev.resumeFail ∈ (jl_try_deliver_sigint envT osResFail sigS0).2.2.1 ∧
    Ev.abortEv ∉ (jl_try_deliver_sigint envT osResFail sigS0).2.2.1 ∧
    Ev.logMsg "error: ResumeThread failed"
      ∈ (jl_try_deliver_sigint envT osResFail sigS0).2.2.1 ∧
    (jl_try_deliver_sigint envT osResFail sigS0).2.2.2 = RunResult.returned := by
  refine ⟨?_, ?_, ?_, rfl⟩ <;> decide

/-- Claim C5 amended: a ResumeThread failure aborts the process on the
stack-walk resume operation (`jl_thread_resume`, and the internal resume
of `jl_thread_suspend_and_get_state` after a failed context read), while
on the interrupt-delivery path a resume failure is logged and the
delivery returns without aborting. -/
theorem resume_failure_abort_amended :
    (∀ os : OsOracle, os.resume_ok = false →
      (jl_thread_resume os).2 = RunResult.died ∧
      Ev.abortEv ∈ (jl_thread_resume os).1) ∧
    (∀ (os : OsOracle) (th : ThreadSlot),
      th.alive = true → th.hasTask = true → os.suspend_ok = true →
      os.getctx_ok = false → os.resume_ok = false →
      (jl_thread_suspend_and_get_state os th).2.2 = RunResult.died ∧
      Ev.abortEv ∈ (jl_thread_suspend_and_get_state os th).2.1) ∧
    (∀ (env : SignalEnv) (os : OsOracle) (s : SigintState),
      Ev.resumeFail ∈ (jl_try_deliver_sigint env os s).2.2.1 →
      (jl_try_deliver_sigint env os s).2.2.2 = RunResult.returned ∧
      Ev.abortEv ∉ (jl_try_deliver_sigint env os s).2.2.1) := by
  refine ⟨?_, ?_, ?_⟩
  · intro os hres
    constructor <;> simp [jl_thread_resume, hres]
  · intro os th ha ht hs hg hres
    constructor <;>
      simp [jl_thread_suspend_and_get_state, ha, ht, hs, hg, hres]
  · intro env os s
    rcases hrun : jl_throw_in_ctx env (some s.task) (some Exc.interrupt)
      s.ctxRead with ⟨t2, c2, out⟩
    intro hmem
    cases hsus : os.suspend_ok
    · simp [jl_try_deliver_sigint, hsus] at hmem
    · cases hf : s.sp.force_sigint
      · cases hdi : (!s.task.ptls.defer_signal && s.task.ptls.io_wait)
        · cases hres : os.resume_ok <;>
            constructor <;>
            simp [jl_try_deliver_sigint, jl_safepoint_enable_sigint,
              jl_check_force_sigint, hsus, hf, hdi, hres]
        · cases hget : os.getctx_ok
          · simp [jl_try_deliver_sigint, jl_safepoint_enable_sigint,
              jl_check_force_sigint, jl_safepoint_consume_sigint,
              jl_clear_force_sigint, hsus, hf, hdi, hget] at hmem
          · cases out <;>
              cases hset : os.setctx_ok <;>
              cases hres : os.resume_ok <;>
              simp_all [jl_try_deliver_sigint, jl_safepoint_enable_sigint,
                jl_check_force_sigint, jl_safepoint_consume_sigint,
                jl_clear_force_sigint, hsus, hf, hdi, hget]
      · cases hget : os.getctx_ok
        · simp [jl_try_deliver_sigint, jl_safepoint_enable_sigint,
            jl_check_force_sigint, jl_safepoint_consume_sigint,
            jl_clear_force_sigint, hsus, hf, hget] at hmem
        · cases out <;>
            cases hset : os.setctx_ok <;>
            cases hres : os.resume_ok <;>
            simp_all [jl_try_deliver_sigint, jl_safepoint_enable_sigint,
              jl_check_force_sigint, jl_safepoint_consume_sigint,
              jl_clear_force_sigint, hsus, hf, hget]

/-- Claim C5 amended witness: the three statements at concrete inputs with
a failing ResumeThread. -/
theorem resume_failure_abort_amended_witness :
    ((jl_thread_resume osResFail).2 = RunResult.died ∧
      Ev.abortEv ∈ (jl_thread_resume osResFail).1) ∧
    ((jl_thread_suspend_and_get_state
        { osAllOk with getctx_ok := false, resume_ok := false } thMain).2.2 =
        RunResult.died ∧
      Ev.abortEv ∈ (jl_thread_suspend_and_get_state
        { osAllOk with getctx_ok := false, resume_ok := false } thMain).2.1) ∧
    ((jl_try_deliver_sigint envT osResFail sigS0).2.2.2 =
        RunResult.returned ∧
      Ev.abortEv ∉ (jl_try_deliver_sigint envT osResFail sigS0).2.2.1) :=
  ⟨resume_failure_abort_amended.1 osResFail rfl,
    resume_failure_abort_amended.2.1
      { osAllOk with getctx_ok := false, resume_ok := false } thMain
      rfl rfl rfl rfl rfl,
    resume_failure_abort_amended.2.2 envT osResFail sigS0 (by decide)⟩

/-- Claim C7 counterexample: in a concrete single-thread-mode sample of
the main worker (tid 0), the trailer's thread-id slot holds 1, not the
main worker's id 0 — the code stores `ptls->tid + 1` so that 0 stays
reserved for the end-of-block marker, refuting the claim that the field
equals the worker id itself. -/
theorem profile_trailer_tid_offset_cex :
    thMain.ptls.tid = 0 ∧
    (profile_bt_step envT osAllOk thMain 9 11 100 []).1 =
      [ProfEntry.ptr 42, ProfEntry.ptr 17, ProfEntry.ptr 1,
        ProfEntry.taskref 9, ProfEntry.ptr 11, ProfEntry.ptr 1,
        ProfEntry.ptr 0, ProfEntry.ptr 0] ∧
    ((profile_bt_step envT osAllOk thMain 9 11 100 []).1.drop 2).head? =
      some (ProfEntry.ptr 1) ∧
    ProfEntry.ptr 1 ≠ ProfEntry.ptr thMain.ptls.tid := by
  refine ⟨rfl, ?_, ?_, by decide⟩ <;> rfl

/-- Claim C7 amended: in single-thread mode against a live busy main
worker, with the suspend, context-read and resume calls succeeding, each
sample appends a block of program-counter entries followed by the
four-field metadata trailer (thread id plus one, task identity, cycle
counter, nonzero sleep state) and a zero/zero terminator. -/
theorem profile_block_layout_amended (env : SignalEnv) (os : OsOracle)
    (th : ThreadSlot) (taskId cycle size_max : Nat) (buf : List ProfEntry)
    (ha : th.alive = true) (ht : th.hasTask = true)
    (hs : os.suspend_ok = true) (hg : os.getctx_ok = true)
    (hr : os.resume_ok = true) :
    (profile_bt_step env os th taskId cycle size_max buf).1 =
      buf
        ++ ((env.rec_backtrace_ctx th.ctx none).take
              (size_max - buf.length - 1)).map ProfEntry.ptr
        ++ [ProfEntry.ptr (th.ptls.tid + 1), ProfEntry.taskref taskId,
            ProfEntry.ptr cycle,
            ProfEntry.ptr (if th.ptls.sleep_check_state == 0 then
                PROFILE_STATE_THREAD_NOT_SLEEPING
              else PROFILE_STATE_THREAD_SLEEPING),
            ProfEntry.ptr 0, ProfEntry.ptr 0] ∧
    (profile_bt_step env os th taskId cycle size_max buf).2.2 =
      RunResult.returned := by
  constructor <;>
    simp [profile_bt_step, jl_thread_suspend_and_get_state, jl_thread_resume,
      ha, ht, hs, hg, hr]

/-- Claim C7 amended witness: the concrete sample from the
counterexample's run matches the block layout. -/
theorem profile_block_layout_amended_witness :
    (profile_bt_step envT osAllOk thMain 9 11 100 []).1 =
      []
        ++ ((envT.rec_backtrace_ctx thMain.ctx none).take
              (100 - List.length ([] : List ProfEntry) - 1)).map ProfEntry.ptr
        ++ [ProfEntry.ptr (thMain.ptls.tid + 1), ProfEntry.taskref 9,
            ProfEntry.ptr 11,
            ProfEntry.ptr (if thMain.ptls.sleep_check_state == 0 then
                PROFILE_STATE_THREAD_NOT_SLEEPING
              else PROFILE_STATE_THREAD_SLEEPING),
            ProfEntry.ptr 0, ProfEntry.ptr 0] ∧
    (profile_bt_step envT osAllOk thMain 9 11 100 []).2.2 =
      RunResult.returned :=
  profile_block_layout_amended envT osAllOk thMain 9 11 100 []
    rfl rfl rfl rfl rfl

/-- Claim C8: after a successful fresh start whose timeBeginPeriod call
succeeded with a nonzero period, calling `jl_profile_stop_timer` twice in
a row is safe: the host timer resolution is restored (timeEndPeriod)
exactly once, across both calls, and the second stop changes nothing and
performs no timer call. -/
theorem profile_stop_idempotent (o : TimerOracle) (all : Bool)
    (s : ProfTimerState) (hrun : s.profile_running = false)
    (hbeg : o.timeBeginPeriod_ok = true) (hper : o.devCapsPeriodMin ≠ 0)
    (hper0 : s.wPeriodMin ≠ 0)
    (hret : (jl_profile_start_timer o all s).2.2 = 0) :
    countEndPeriod
        ((jl_profile_stop_timer (jl_profile_start_timer o all s).1).2
          ++ (jl_profile_stop_timer
                (jl_profile_stop_timer
                  (jl_profile_start_timer o all s).1).1).2) = 1 ∧
    (jl_profile_stop_timer
        (jl_profile_stop_timer (jl_profile_start_timer o all s).1).1).1 =
      (jl_profile_stop_timer (jl_profile_start_timer o all s).1).1 ∧
    (jl_profile_stop_timer
        (jl_profile_stop_timer (jl_profile_start_timer o all s).1).1).2 =
      [] := by
  rcases o with ⟨gdc, per, ct, rbt, tbp⟩
  cases hbeg
  cases hbt : s.hBtThread <;> cases gdc <;> cases ct <;> cases rbt <;>
    simp_all [jl_profile_start_timer, jl_profile_stop_timer, countEndPeriod,
      hbt, hrun]

/-- Claim C8 witness: concrete double stop after a fresh successful
start. -/
theorem profile_stop_idempotent_witness :
    countEndPeriod
        ((jl_profile_stop_timer
            (jl_profile_start_timer
              { getDevCaps_ok := true, devCapsPeriodMin := 1,
                createThread_ok := true, resumeBt_ok := true,
                timeBeginPeriod_ok := true } false
              { hBtThread := false, profile_running := false,
                profile_all_tasks := false, wPeriodMin := 1 }).1).2
          ++ (jl_profile_stop_timer
                (jl_profile_stop_timer
                  (jl_profile_start_timer
                    { getDevCaps_ok := true, devCapsPeriodMin := 1,
                      createThread_ok := true, resumeBt_ok := true,
                      timeBeginPeriod_ok := true } false
                    { hBtThread := false, profile_running := false,
                      profile_all_tasks := false, wPeriodMin := 1 }).1).1).2) =
      1 :=
  (profile_stop_idempotent
    { getDevCaps_ok := true, devCapsPeriodMin := 1, createThread_ok := true,
      resumeBt_ok := true, timeBeginPeriod_ok := true } false
    { hBtThread := false, profile_running := false,
      profile_all_tasks := false, wPeriodMin := 1 }
    rfl rfl (by decide) (by decide) rfl).1

end SignalsWin
